import Mathlib

/-!
# Mali-400 platform glue for sunxi: clock setup, teardown and timed boost

Shallow embedding of `drivers/gpu/mali/mali/platform/mali400-pmu/mali_platform.c`
(built with `CONFIG_MALI400_BOOST`, which is what makes `mali_boost` and the
`boost` work callback exist).

* The file-scope variables of the C file are the fields of `State`.
* The clock framework (`clk_get`, `clk_set_parent`, `clk_get_rate`, `clk_set_rate`,
  `clk_reset`, `clk_enable`) and the board configuration (`script_parser_fetch`)
  are outside the file.  Their answers are the fields of `Env`, an arbitrary
  oracle that is a function of the arguments and is chosen afresh for every
  call of an entry point, and every clock-framework call the file issues is
  appended to `State.calls` with the variable it was issued through and the
  pointer value that variable held.
* `MALI_PRINT` / `MALI_DEBUG_PRINT` diagnostics are appended to `State.log`.
* `unsigned long` is 32 bits wide (the file is ARM platform code); `int` is
  32 bits wide.
* A C function either returns, or divides by zero (`rate /= mali_clk_div`),
  or blocks for ever in `mutex_lock` on a mutex that is held: `Outcome`.
-/

namespace MaliPlatform

/-! ## Machine integers -/

/-- Width in bits of `unsigned long` on the target. -/
def ULONG_BITS : Nat := 32

/-- Smallest value of a C `int`. -/
def INT_MIN : Int := -2147483648

/-- Largest value of a C `int`. -/
def INT_MAX : Int := 2147483647

/-- The value is representable in a C `int`. -/
def isInt (x : Int) : Prop := INT_MIN ≤ x ∧ x ≤ INT_MAX

instance (x : Int) : Decidable (isInt x) := by
  unfold isInt; infer_instance

/-- Conversion of an `int` to `unsigned long` (value modulo `2 ^ ULONG_BITS`). -/
def toULong (x : Int) : Nat := (x % (2 : Int) ^ ULONG_BITS).toNat

/-- Result of an `int` computation reduced to 32-bit two's complement. -/
def wrapInt (x : Int) : Int := (x + 2147483648) % 4294967296 - 2147483648

/-- Multiplication `a * b` carried out in `int`. -/
def int_mul (a b : Int) : Int := wrapInt (a * b)

/-! ## Constants of the file (lines 27-31) -/

/-- Line 28: `#define MALI400_BOOST_RATE 1200000000` (Hz). -/
def MALI400_BOOST_RATE : Int := 1200000000

/-- Line 29: `#define MALI_INIT_RATE 960000000` (Hz). -/
def MALI_INIT_RATE : Int := 960000000

/-- Line 30: `#define MALI_BOOST_DURATION 500` (msec). -/
def MALI_BOOST_DURATION : Int := 500

/-! ## Clock handles, calls and diagnostics -/

/-- A `struct clk *`; `0` is `NULL`. -/
abbrev Handle := Nat

/-- The three clock-handle variables of line 38. -/
inductive ClkVar where
  | h_ahb_mali
  | h_mali_clk
  | h_ve_pll
  deriving DecidableEq, Repr

/-- One call into the clock framework, with the arguments it was given.  A call
on a clock records the variable the handle was read from and the handle. -/
inductive Call where
  | clk_get (name : String)
  | clk_set_parent (clk : ClkVar) (h : Handle) (parent : ClkVar) (hp : Handle)
  | clk_get_rate (clk : ClkVar) (h : Handle)
  | clk_set_rate (clk : ClkVar) (h : Handle) (rate : Nat)
  | clk_reset (clk : ClkVar) (h : Handle) (reset : Int)
  | clk_enable (clk : ClkVar) (h : Handle)
  | clk_disable (clk : ClkVar) (h : Handle)
  deriving DecidableEq, Repr

/-- The diagnostics of the file: the `MALI_PRINT` messages, and the
`MALI_DEBUG_PRINT(3, ...)` messages (constructors named `debug_`). -/
inductive Msg where
  | get_ahb_failed
  | get_mali_failed
  | get_ve_pll_failed
  | set_parent_failed
  | set_rate_failed
  | reset_release_failed
  | enable_ahb_failed
  | enable_mali_failed
  | boot_clk_div (d : Int)
  | boot_clock_set (mhz : Nat)
  | debug_use_config_clk_div (d : Int)
  | debug_clk_div (d : Int)
  | debug_clock_set (mhz : Nat)
  deriving DecidableEq, Repr

/-- The `boost_timer` of line 52.  `pending = some m` means the timer was armed
by `mod_timer` to expire `msecs_to_jiffies(m)` jiffies after the arming. -/
structure timer_list where
  is_setup : Bool
  pending : Option Int
  deriving DecidableEq, Repr

/-- Return codes of `_mali_osk_errcode_t` (declared in `mali_osk.h`); the file
only ever produces the success code, through `MALI_SUCCESS`. -/
inductive mali_osk_errcode_t where
  | MALI_OSK_ERR_OK
  | MALI_OSK_ERR_FAULT
  deriving DecidableEq, Repr

/-! ## State and environment -/

/-- The file-scope variables, the calls issued so far and the diagnostics. -/
structure State where
  mali_clk_div : Int
  h_ahb_mali : Handle
  h_mali_clk : Handle
  h_ve_pll : Handle
  mali_clk_flag : Int
  mali_boost_rate : Int
  mali_boost_duration : Int
  boost_timer : timer_list
  mali_init_rate : Nat
  boot : Bool
  boost_on : Bool
  boost_mutex : Bool
  calls : List Call
  log : List Msg
  deriving DecidableEq, Repr

/-- The variables as their initialisers leave them (lines 33-56). -/
def State.initial : State where
  mali_clk_div := 3
  h_ahb_mali := 0
  h_mali_clk := 0
  h_ve_pll := 0
  mali_clk_flag := 0
  mali_boost_rate := MALI400_BOOST_RATE / 1000000
  mali_boost_duration := MALI_BOOST_DURATION
  boost_timer := ⟨false, none⟩
  mali_init_rate := toULong MALI_INIT_RATE
  boot := true
  boost_on := false
  boost_mutex := false
  calls := []
  log := []

/-- What the code outside the file answers during one call of a function of the
file.  `script_parser_fetch main sub = some v` is a fetch that returns `0` and
stores `v`; `none` is a fetch that returns non-zero and stores nothing. -/
structure Env where
  clk_get : String → Handle
  clk_set_parent : Handle → Handle → Int
  clk_get_rate : Handle → Nat
  clk_set_rate : Handle → Nat → Int
  clk_reset : Handle → Int → Int
  clk_enable : Handle → Int
  script_parser_fetch : String → String → Option Int

/-- How a call of a function of the file ends. -/
inductive Outcome (α : Type) where
  | returned (ret : α) (s : State)
  | div_by_zero (s : State)
  | blocked (s : State)
  deriving DecidableEq, Repr

/-- The state in which the call ended. -/
def Outcome.state {α : Type} : Outcome α → State
  | .returned _ s => s
  | .div_by_zero s => s
  | .blocked s => s

/-- Append one clock-framework call to the record. -/
def State.emit (s : State) (c : Call) : State :=
  { s with calls := s.calls ++ [c] }

/-- Append one diagnostic. -/
def State.print (s : State) (m : Msg) : State :=
  { s with log := s.log ++ [m] }

/-- The pattern `if (cond) MALI_PRINT((msg));`. -/
def State.printIf (s : State) (cond : Bool) (m : Msg) : State :=
  if cond then s.print m else s

/-! ## `mali_platform_init` (lines 96-175) -/

/-- Lines 102-119: the three `clk_get` lookups and `clk_set_parent`. -/
def init_get_clocks (e : Env) (s : State) : State :=
  let s := { s.emit (.clk_get "ahb_mali") with h_ahb_mali := e.clk_get "ahb_mali" }
  let s := s.printIf (s.h_ahb_mali == 0) .get_ahb_failed
  let s := { s.emit (.clk_get "mali") with h_mali_clk := e.clk_get "mali" }
  let s := s.printIf (s.h_mali_clk == 0) .get_mali_failed
  let s := { s.emit (.clk_get "ve_pll") with h_ve_pll := e.clk_get "ve_pll" }
  let s := s.printIf (s.h_ve_pll == 0) .get_ve_pll_failed
  let r := e.clk_set_parent s.h_mali_clk s.h_ve_pll
  let s := s.emit (.clk_set_parent .h_mali_clk s.h_mali_clk .h_ve_pll s.h_ve_pll)
  s.printIf (r != 0) .set_parent_failed

/-- Lines 124-134: the board-configuration lookup, which may overwrite
`mali_clk_div`. -/
def init_fetch_config (e : Env) (s : State) : State :=
  match e.script_parser_fetch "mali_para" "mali_used" with
  | some mali_used =>
    if mali_used = 1 then
      match e.script_parser_fetch "mali_para" "mali_clkdiv" with
      | some clk_div =>
        if clk_div > 0 then
          { s.print (.debug_use_config_clk_div clk_div) with mali_clk_div := clk_div }
        else s
      | none => s
    else s
  | none => s

/-- Lines 139-147: `clk_set_rate` and `clk_reset` on the mali clock. -/
def init_set_clock (e : Env) (rate : Nat) (s : State) : State :=
  let r := e.clk_set_rate s.h_mali_clk rate
  let s := s.emit (.clk_set_rate .h_mali_clk s.h_mali_clk rate)
  let s := s.printIf (r != 0) .set_rate_failed
  let r := e.clk_reset s.h_mali_clk 0
  let s := s.emit (.clk_reset .h_mali_clk s.h_mali_clk 0)
  let s := s.printIf (r != 0) .reset_release_failed
  s.print (.debug_clock_set (rate / 1000000))

/-- Lines 153-161: enable the bus and core clocks unless already enabled. -/
def init_enable (e : Env) (s : State) : State :=
  if s.mali_clk_flag = 0 then
    let s := { s with mali_clk_flag := 1 }
    let r := e.clk_enable s.h_ahb_mali
    let s := s.emit (.clk_enable .h_ahb_mali s.h_ahb_mali)
    let s := s.printIf (r != 0) .enable_ahb_failed
    let r := e.clk_enable s.h_mali_clk
    let s := s.emit (.clk_enable .h_mali_clk s.h_mali_clk)
    s.printIf (r != 0) .enable_mali_failed
  else s

/-- Lines 163-172: first-call work; `mali_init_rate = (long int)h_ve_pll` stores
the pointer value, and `setup_timer` initialises `boost_timer`. -/
def init_boot (rate : Nat) (s : State) : State :=
  if s.boot then
    let s := s.print (.boot_clk_div s.mali_clk_div)
    let s := s.print (.boot_clock_set (rate / 1000000))
    { s with mali_init_rate := s.h_ve_pll % 2 ^ ULONG_BITS,
             boost_timer := ⟨true, none⟩,
             boot := false }
  else s

/-- The function `mali_platform_init`. -/
def mali_platform_init (e : Env) (s : State) : Outcome mali_osk_errcode_t :=
  let s := init_get_clocks e s
  let rate := e.clk_get_rate s.h_ve_pll % 2 ^ ULONG_BITS
  let s := s.emit (.clk_get_rate .h_ve_pll s.h_ve_pll)
  let s := init_fetch_config e s
  let s := s.print (.debug_clk_div s.mali_clk_div)
  if toULong s.mali_clk_div = 0 then
    .div_by_zero s
  else
    let rate := rate / toULong s.mali_clk_div
    let s := init_set_clock e rate s
    let s := init_enable e s
    let s := init_boot rate s
    .returned .MALI_OSK_ERR_OK s

/-! ## `mali_platform_deinit` and the empty hooks (lines 177-204) -/

/-- The function `mali_platform_deinit`. -/
def mali_platform_deinit (s : State) : Outcome mali_osk_errcode_t :=
  let s :=
    if s.mali_clk_flag = 1 then
      let s := { s with mali_clk_flag := 0 }
      let s := s.emit (.clk_disable .h_mali_clk s.h_mali_clk)
      s.emit (.clk_disable .h_ahb_mali s.h_ahb_mali)
    else s
  let s := { s with boost_timer := { s.boost_timer with pending := none } }
  .returned .MALI_OSK_ERR_OK s

/-- The function `mali_platform_power_mode_change`; the argument is the
`mali_power_mode` enumerator. -/
def mali_platform_power_mode_change (_power_mode : Int) (s : State) :
    Outcome mali_osk_errcode_t :=
  .returned .MALI_OSK_ERR_OK s

/-- The function `mali_gpu_utilization_handler`. -/
def mali_gpu_utilization_handler (_utilization : Nat) (s : State) : Outcome Unit :=
  .returned () s

/-- The function `set_mali_parent_power_domain`; the argument is the pointer. -/
def set_mali_parent_power_domain (_dev : Nat) (s : State) : Outcome Unit :=
  .returned () s

/-! ## The boost (lines 58-93) -/

/-- The argument `mali_boost_rate * 1000000` of line 68, multiplied in `int`
and converted to the `unsigned long` parameter of `clk_set_rate`. -/
def boost_rate_hz (s : State) : Nat :=
  toULong (int_mul s.mali_boost_rate 1000000)

/-- The function `mali_boost`. -/
def mali_boost (e : Env) (s : State) : Outcome Int :=
  if s.boost_on then
    .returned (-1) s
  else if s.boost_mutex then
    .blocked s
  else
    let s := { s with boost_mutex := true }
    let s := { s.emit (.clk_get "ve_pll") with h_ve_pll := e.clk_get "ve_pll" }
    if s.h_ve_pll = 0 then
      .returned (-1) s
    else
      let s := s.emit (.clk_set_rate .h_ve_pll s.h_ve_pll (boost_rate_hz s))
      match mali_platform_init e s with
      | .returned _ s =>
        let s := { s with boost_on := true }
        let s := { s with boost_mutex := false }
        let s := { s with boost_timer :=
                    { s.boost_timer with pending := some s.mali_boost_duration } }
        .returned 0 s
      | .div_by_zero s => .div_by_zero s
      | .blocked s => .blocked s

/-- The work callback `boost`, run when the boost timer has expired. -/
def boost (e : Env) (s : State) : Outcome Unit :=
  if s.boost_mutex then
    .blocked s
  else
    let s := { s with boost_mutex := true }
    let s := { s.emit (.clk_get "ve_pll") with h_ve_pll := e.clk_get "ve_pll" }
    let s := s.printIf (s.h_ve_pll == 0) .get_ve_pll_failed
    let s := s.emit (.clk_set_rate .h_ve_pll s.h_ve_pll (toULong MALI_INIT_RATE))
    match mali_platform_init e s with
    | .returned _ s =>
      let s := { s with boost_on := false }
      let s := { s with boost_mutex := false }
      .returned () s
    | .div_by_zero s => .div_by_zero s
    | .blocked s => .blocked s

/-! ## Sequences of calls -/

/-- The entry points that the driver framework, the power HAL and the timer
invoke. -/
inductive Op where
  | init
  | deinit
  | boost_request
  | boost_expiry
  deriving DecidableEq, Repr

/-- One call: the state in which it ends and whether it returned. -/
def step (op : Op) (e : Env) (s : State) : State × Bool :=
  match op with
  | .init =>
    match mali_platform_init e s with
    | .returned _ s => (s, true)
    | o => (o.state, false)
  | .deinit =>
    match mali_platform_deinit s with
    | .returned _ s => (s, true)
    | o => (o.state, false)
  | .boost_request =>
    match mali_boost e s with
    | .returned _ s => (s, true)
    | o => (o.state, false)
  | .boost_expiry =>
    match boost e s with
    | .returned _ s => (s, true)
    | o => (o.state, false)

/-- A sequence of calls, each with the answers of its environment; a call that
does not return ends the sequence. -/
def run : List (Op × Env) → State → State
  | [], s => s
  | (op, e) :: rest, s =>
    match step op e s with
    | (s, true) => run rest s
    | (s, false) => s

/-! ## Observations on the record of calls -/

/-- Number of `clk_enable` calls issued through the variable `v`. -/
def enables (v : ClkVar) (l : List Call) : Nat :=
  l.countP (fun c => match c with
    | .clk_enable w _ => decide (w = v)
    | _ => false)

/-- Number of `clk_disable` calls issued through the variable `v`. -/
def disables (v : ClkVar) (l : List Call) : Nat :=
  l.countP (fun c => match c with
    | .clk_disable w _ => decide (w = v)
    | _ => false)

/-- Enables minus disables for the clock of variable `v`. -/
def balance (v : ClkVar) (l : List Call) : Int :=
  (enables v l : Int) - (disables v l : Int)

/-- The rate a call requests for the clock of variable `v`, if it is a
`clk_set_rate` issued through `v`. -/
def requested_rate (v : ClkVar) : Call → Option Nat
  | .clk_set_rate w _ r => if w = v then some r else none
  | _ => none

/-- The rate of the most recent `clk_set_rate` issued through `v`, if any. -/
def last_set_rate (v : ClkVar) : List Call → Option Nat
  | [] => none
  | c :: rest =>
    match last_set_rate v rest with
    | some r => some r
    | none => requested_rate v c

/-- An environment in which every lookup succeeds: distinct non-null handles,
`ve_pll` read back at `rate`, every call reporting success, and a board
configuration holding the given `mali_used` and `mali_clkdiv` entries. -/
def Env.ok (rate : Nat) (used clkdiv : Option Int) : Env where
  clk_get := fun n => if n = "ahb_mali" then 1 else if n = "mali" then 2 else 3
  clk_set_parent := fun _ _ => 0
  clk_get_rate := fun _ => rate
  clk_set_rate := fun _ _ => 0
  clk_reset := fun _ _ => 0
  clk_enable := fun _ => 0
  script_parser_fetch := fun _ sub =>
    if sub = "mali_used" then used else if sub = "mali_clkdiv" then clkdiv else none

/-- An environment in which everything fails: every `clk_get` returns `NULL`,
every clock call reports an error, and the configuration has no entry. -/
def Env.failing : Env where
  clk_get := fun _ => 0
  clk_set_parent := fun _ _ => -1
  clk_get_rate := fun _ => 0
  clk_set_rate := fun _ _ => -1
  clk_reset := fun _ _ => -1
  clk_enable := fun _ => -1
  script_parser_fetch := fun _ _ => none

/-! ## Named intermediate states and predicates used by the statements -/

/-- The state in which line 137 is reached. -/
def init_at_div (e : Env) (s : State) : State :=
  let s := init_get_clocks e s
  let s := s.emit (.clk_get_rate .h_ve_pll s.h_ve_pll)
  let s := init_fetch_config e s
  s.print (.debug_clk_div s.mali_clk_div)

/-- The rate that line 139 passes to `clk_set_rate`: the rate read back from
`ve_pll`, divided as `unsigned long` by the converted `mali_clk_div`. -/
def init_mali_rate (e : Env) (s : State) : Nat :=
  e.clk_get_rate (e.clk_get "ve_pll") % 2 ^ ULONG_BITS
    / toULong (init_fetch_config e s).mali_clk_div

/-- Lines 139-172 applied to the state `t` reached at line 137. -/
def init_tail (e : Env) (r : Nat) (t : State) : State :=
  init_boot r (init_enable e (init_set_clock e r t))

/-- The board configuration supplies the divider `v`: `mali_used` is fetched as
`1`, `mali_clkdiv` is fetched as `v`, and `v` is positive. -/
def config_supplies (e : Env) (v : Int) : Prop :=
  e.script_parser_fetch "mali_para" "mali_used" = some 1 ∧
  e.script_parser_fetch "mali_para" "mali_clkdiv" = some v ∧ 0 < v

instance (e : Env) (v : Int) : Decidable (config_supplies e v) := by
  unfold config_supplies; infer_instance

/-- The state in which `mali_boost` calls `mali_platform_init` (line 69). -/
def mali_boost_entry (e : Env) (s : State) : State :=
  let s := { s with boost_mutex := true }
  let s := { s.emit (.clk_get "ve_pll") with h_ve_pll := e.clk_get "ve_pll" }
  s.emit (.clk_set_rate .h_ve_pll s.h_ve_pll (boost_rate_hz s))

/-- What `mali_boost` does with the state `t` returned by `mali_platform_init`
(lines 70-72). -/
def mali_boost_exit (t : State) : State :=
  let t := { t with boost_on := true }
  let t := { t with boost_mutex := false }
  { t with boost_timer := { t.boost_timer with pending := some t.mali_boost_duration } }

/-- The state in which `boost` calls `mali_platform_init` (line 84). -/
def boost_entry (e : Env) (s : State) : State :=
  let s := { s with boost_mutex := true }
  let s := { s.emit (.clk_get "ve_pll") with h_ve_pll := e.clk_get "ve_pll" }
  let s := s.printIf (s.h_ve_pll == 0) .get_ve_pll_failed
  s.emit (.clk_set_rate .h_ve_pll s.h_ve_pll (toULong MALI_INIT_RATE))

/-- What `boost` does with the state `t` returned by `mali_platform_init`
(lines 85-86). -/
def boost_exit (t : State) : State :=
  let t := { t with boost_on := false }
  { t with boost_mutex := false }

/-- The bookkeeping invariant: for both clocks the enables exceed the disables
by `mali_clk_flag`, which is `0` or `1`. -/
def clocks_match_flag (s : State) : Prop :=
  balance .h_ahb_mali s.calls = s.mali_clk_flag ∧
  balance .h_mali_clk s.calls = s.mali_clk_flag ∧
  (s.mali_clk_flag = 0 ∨ s.mali_clk_flag = 1)

/-! ## Frame lemmas: what each piece leaves alone -/

section Frame

variable (e : Env) (s : State) (c : Bool) (m : Msg)

@[simp] theorem printIf_mali_clk_div : (s.printIf c m).mali_clk_div = s.mali_clk_div := by
  unfold State.printIf State.print; split <;> rfl

@[simp] theorem printIf_h_ahb_mali : (s.printIf c m).h_ahb_mali = s.h_ahb_mali := by
  unfold State.printIf State.print; split <;> rfl

@[simp] theorem printIf_h_mali_clk : (s.printIf c m).h_mali_clk = s.h_mali_clk := by
  unfold State.printIf State.print; split <;> rfl

@[simp] theorem printIf_h_ve_pll : (s.printIf c m).h_ve_pll = s.h_ve_pll := by
  unfold State.printIf State.print; split <;> rfl

@[simp] theorem printIf_mali_clk_flag : (s.printIf c m).mali_clk_flag = s.mali_clk_flag := by
  unfold State.printIf State.print; split <;> rfl

@[simp] theorem printIf_mali_boost_rate :
    (s.printIf c m).mali_boost_rate = s.mali_boost_rate := by
  unfold State.printIf State.print; split <;> rfl

@[simp] theorem printIf_mali_boost_duration :
    (s.printIf c m).mali_boost_duration = s.mali_boost_duration := by
  unfold State.printIf State.print; split <;> rfl

@[simp] theorem printIf_boost_timer : (s.printIf c m).boost_timer = s.boost_timer := by
  unfold State.printIf State.print; split <;> rfl

@[simp] theorem printIf_boot : (s.printIf c m).boot = s.boot := by
  unfold State.printIf State.print; split <;> rfl

@[simp] theorem printIf_boost_on : (s.printIf c m).boost_on = s.boost_on := by
  unfold State.printIf State.print; split <;> rfl

@[simp] theorem printIf_boost_mutex : (s.printIf c m).boost_mutex = s.boost_mutex := by
  unfold State.printIf State.print; split <;> rfl

@[simp] theorem printIf_calls : (s.printIf c m).calls = s.calls := by
  unfold State.printIf State.print; split <;> rfl

/-- The three lookups and the re-parenting, as calls. -/
theorem init_get_clocks_calls :
    (init_get_clocks e s).calls = s.calls ++
      [.clk_get "ahb_mali", .clk_get "mali", .clk_get "ve_pll",
       .clk_set_parent .h_mali_clk (e.clk_get "mali") .h_ve_pll (e.clk_get "ve_pll")] := by
  simp [init_get_clocks, State.emit]

theorem init_get_clocks_h_ahb_mali :
    (init_get_clocks e s).h_ahb_mali = e.clk_get "ahb_mali" := by
  simp [init_get_clocks, State.emit]

theorem init_get_clocks_h_mali_clk :
    (init_get_clocks e s).h_mali_clk = e.clk_get "mali" := by
  simp [init_get_clocks, State.emit]

theorem init_get_clocks_h_ve_pll :
    (init_get_clocks e s).h_ve_pll = e.clk_get "ve_pll" := by
  simp [init_get_clocks, State.emit]

theorem init_get_clocks_mali_clk_div :
    (init_get_clocks e s).mali_clk_div = s.mali_clk_div := by
  simp [init_get_clocks, State.emit]

theorem init_get_clocks_mali_clk_flag :
    (init_get_clocks e s).mali_clk_flag = s.mali_clk_flag := by
  simp [init_get_clocks, State.emit]

theorem init_get_clocks_boost_on : (init_get_clocks e s).boost_on = s.boost_on := by
  simp [init_get_clocks, State.emit]

theorem init_get_clocks_boost_mutex :
    (init_get_clocks e s).boost_mutex = s.boost_mutex := by
  simp [init_get_clocks, State.emit]

theorem init_get_clocks_boost_timer :
    (init_get_clocks e s).boost_timer = s.boost_timer := by
  simp [init_get_clocks, State.emit]

theorem init_get_clocks_boot : (init_get_clocks e s).boot = s.boot := by
  simp [init_get_clocks, State.emit]

theorem init_get_clocks_mali_boost_duration :
    (init_get_clocks e s).mali_boost_duration = s.mali_boost_duration := by
  simp [init_get_clocks, State.emit]

theorem init_get_clocks_mali_boost_rate :
    (init_get_clocks e s).mali_boost_rate = s.mali_boost_rate := by
  simp [init_get_clocks, State.emit]

theorem init_fetch_config_calls : (init_fetch_config e s).calls = s.calls := by
  unfold init_fetch_config State.print; (repeat' split) <;> rfl

theorem init_fetch_config_h_ahb_mali :
    (init_fetch_config e s).h_ahb_mali = s.h_ahb_mali := by
  unfold init_fetch_config State.print; (repeat' split) <;> rfl

theorem init_fetch_config_h_mali_clk :
    (init_fetch_config e s).h_mali_clk = s.h_mali_clk := by
  unfold init_fetch_config State.print; (repeat' split) <;> rfl

theorem init_fetch_config_h_ve_pll : (init_fetch_config e s).h_ve_pll = s.h_ve_pll := by
  unfold init_fetch_config State.print; (repeat' split) <;> rfl

theorem init_fetch_config_mali_clk_flag :
    (init_fetch_config e s).mali_clk_flag = s.mali_clk_flag := by
  unfold init_fetch_config State.print; (repeat' split) <;> rfl

theorem init_fetch_config_boost_on : (init_fetch_config e s).boost_on = s.boost_on := by
  unfold init_fetch_config State.print; (repeat' split) <;> rfl

theorem init_fetch_config_boost_mutex :
    (init_fetch_config e s).boost_mutex = s.boost_mutex := by
  unfold init_fetch_config State.print; (repeat' split) <;> rfl

theorem init_fetch_config_boost_timer :
    (init_fetch_config e s).boost_timer = s.boost_timer := by
  unfold init_fetch_config State.print; (repeat' split) <;> rfl

theorem init_fetch_config_boot : (init_fetch_config e s).boot = s.boot := by
  unfold init_fetch_config State.print; (repeat' split) <;> rfl

theorem init_fetch_config_mali_boost_duration :
    (init_fetch_config e s).mali_boost_duration = s.mali_boost_duration := by
  unfold init_fetch_config State.print; (repeat' split) <;> rfl

theorem init_fetch_config_mali_boost_rate :
    (init_fetch_config e s).mali_boost_rate = s.mali_boost_rate := by
  unfold init_fetch_config State.print; (repeat' split) <;> rfl

/-- The divider chosen by the configuration lookup depends on the state only
through `mali_clk_div`. -/
theorem init_fetch_config_mali_clk_div_congr (s1 s2 : State)
    (h : s1.mali_clk_div = s2.mali_clk_div) :
    (init_fetch_config e s1).mali_clk_div = (init_fetch_config e s2).mali_clk_div := by
  unfold init_fetch_config State.print; (repeat' split) <;> first | rfl | exact h

end Frame

/-! ## What `mali_platform_init` does -/

section Init

variable (e : Env) (s : State)

/-- The divider in force at line 137: `mali_clk_div` after the configuration
lookup. -/
theorem init_div_state_clk_div :
    (init_fetch_config e ((init_get_clocks e s).emit
        (.clk_get_rate .h_ve_pll (init_get_clocks e s).h_ve_pll))).mali_clk_div
      = (init_fetch_config e s).mali_clk_div := by
  apply init_fetch_config_mali_clk_div_congr
  simp [State.emit, init_get_clocks_mali_clk_div]

/-- With a zero divider the call ends in the division. -/
theorem init_div_by_zero (h : toULong (init_fetch_config e s).mali_clk_div = 0) :
    mali_platform_init e s = .div_by_zero (mali_platform_init e s).state := by
  have h2 := init_div_state_clk_div e s
  unfold mali_platform_init
  simp only [State.print]
  rw [if_pos (by rw [h2]; exact h)]
  rfl

/-- With a non-zero divider the call returns the success code. -/
theorem init_returns (h : toULong (init_fetch_config e s).mali_clk_div ≠ 0) :
    mali_platform_init e s
      = .returned .MALI_OSK_ERR_OK (mali_platform_init e s).state := by
  have h2 := init_div_state_clk_div e s
  unfold mali_platform_init
  simp only [State.print]
  rw [if_neg (by rw [h2]; exact h)]
  rfl

end Init

section InitState

variable (e : Env) (s : State)

theorem init_at_div_calls :
    (init_at_div e s).calls = s.calls ++
      [.clk_get "ahb_mali", .clk_get "mali", .clk_get "ve_pll",
       .clk_set_parent .h_mali_clk (e.clk_get "mali") .h_ve_pll (e.clk_get "ve_pll"),
       .clk_get_rate .h_ve_pll (e.clk_get "ve_pll")] := by
  simp [init_at_div, State.print, State.emit, init_fetch_config_calls,
    init_get_clocks_calls, init_get_clocks_h_ve_pll]

theorem init_at_div_mali_clk_div :
    (init_at_div e s).mali_clk_div = (init_fetch_config e s).mali_clk_div := by
  simp only [init_at_div, State.print]
  exact init_div_state_clk_div e s

theorem init_at_div_h_ahb_mali : (init_at_div e s).h_ahb_mali = e.clk_get "ahb_mali" := by
  simp [init_at_div, State.print, State.emit, init_fetch_config_h_ahb_mali,
    init_get_clocks_h_ahb_mali]

theorem init_at_div_h_mali_clk : (init_at_div e s).h_mali_clk = e.clk_get "mali" := by
  simp [init_at_div, State.print, State.emit, init_fetch_config_h_mali_clk,
    init_get_clocks_h_mali_clk]

theorem init_at_div_h_ve_pll : (init_at_div e s).h_ve_pll = e.clk_get "ve_pll" := by
  simp [init_at_div, State.print, State.emit, init_fetch_config_h_ve_pll,
    init_get_clocks_h_ve_pll]

theorem init_at_div_mali_clk_flag : (init_at_div e s).mali_clk_flag = s.mali_clk_flag := by
  simp [init_at_div, State.print, State.emit, init_fetch_config_mali_clk_flag,
    init_get_clocks_mali_clk_flag]

theorem init_at_div_boost_on : (init_at_div e s).boost_on = s.boost_on := by
  simp [init_at_div, State.print, State.emit, init_fetch_config_boost_on,
    init_get_clocks_boost_on]

theorem init_at_div_boost_mutex : (init_at_div e s).boost_mutex = s.boost_mutex := by
  simp [init_at_div, State.print, State.emit, init_fetch_config_boost_mutex,
    init_get_clocks_boost_mutex]

theorem init_at_div_boost_timer : (init_at_div e s).boost_timer = s.boost_timer := by
  simp [init_at_div, State.print, State.emit, init_fetch_config_boost_timer,
    init_get_clocks_boost_timer]

theorem init_at_div_boot : (init_at_div e s).boot = s.boot := by
  simp [init_at_div, State.print, State.emit, init_fetch_config_boot,
    init_get_clocks_boot]

theorem init_at_div_mali_boost_duration :
    (init_at_div e s).mali_boost_duration = s.mali_boost_duration := by
  simp [init_at_div, State.print, State.emit, init_fetch_config_mali_boost_duration,
    init_get_clocks_mali_boost_duration]

theorem init_at_div_mali_boost_rate :
    (init_at_div e s).mali_boost_rate = s.mali_boost_rate := by
  simp [init_at_div, State.print, State.emit, init_fetch_config_mali_boost_rate,
    init_get_clocks_mali_boost_rate]

/-- The final state when the divider is zero. -/
theorem init_state_zero (h : toULong (init_fetch_config e s).mali_clk_div = 0) :
    (mali_platform_init e s).state = init_at_div e s := by
  have h2 := init_div_state_clk_div e s
  unfold mali_platform_init
  simp only [State.print]
  rw [if_pos (by rw [h2]; exact h)]
  rfl

/-- The final state when the divider is not zero. -/
theorem init_state_nonzero (h : toULong (init_fetch_config e s).mali_clk_div ≠ 0) :
    (mali_platform_init e s).state
      = init_boot (init_mali_rate e s)
          (init_enable e (init_set_clock e (init_mali_rate e s) (init_at_div e s))) := by
  have h2 := init_div_state_clk_div e s
  have h3 := init_get_clocks_h_ve_pll e s
  unfold mali_platform_init
  simp only [State.print]
  rw [if_neg (by rw [h2]; exact h)]
  rw [h3] at h2
  simp only [Outcome.state, init_mali_rate, init_at_div, State.print, h3, h2]

end InitState

section InitTail

variable (e : Env) (r : Nat) (t : State)

theorem init_tail_calls :
    (init_tail e r t).calls = t.calls ++
      [.clk_set_rate .h_mali_clk t.h_mali_clk r, .clk_reset .h_mali_clk t.h_mali_clk 0] ++
      (if t.mali_clk_flag = 0 then
        [.clk_enable .h_ahb_mali t.h_ahb_mali, .clk_enable .h_mali_clk t.h_mali_clk]
       else []) := by
  unfold init_tail init_boot init_enable init_set_clock
  split_ifs <;> simp_all [State.emit, State.print]

theorem init_tail_mali_clk_flag :
    (init_tail e r t).mali_clk_flag = if t.mali_clk_flag = 0 then 1 else t.mali_clk_flag := by
  unfold init_tail init_boot init_enable init_set_clock
  split_ifs <;> simp_all [State.emit, State.print]

theorem init_tail_mali_clk_div : (init_tail e r t).mali_clk_div = t.mali_clk_div := by
  unfold init_tail init_boot init_enable init_set_clock
  split_ifs <;> simp_all [State.emit, State.print]

theorem init_tail_boost_on : (init_tail e r t).boost_on = t.boost_on := by
  unfold init_tail init_boot init_enable init_set_clock
  split_ifs <;> simp_all [State.emit, State.print]

theorem init_tail_boost_mutex : (init_tail e r t).boost_mutex = t.boost_mutex := by
  unfold init_tail init_boot init_enable init_set_clock
  split_ifs <;> simp_all [State.emit, State.print]

theorem init_tail_mali_boost_duration :
    (init_tail e r t).mali_boost_duration = t.mali_boost_duration := by
  unfold init_tail init_boot init_enable init_set_clock
  split_ifs <;> simp_all [State.emit, State.print]

theorem init_tail_mali_boost_rate :
    (init_tail e r t).mali_boost_rate = t.mali_boost_rate := by
  unfold init_tail init_boot init_enable init_set_clock
  split_ifs <;> simp_all [State.emit, State.print]

theorem init_tail_boost_timer :
    (init_tail e r t).boost_timer = if t.boot then ⟨true, none⟩ else t.boost_timer := by
  unfold init_tail init_boot init_enable init_set_clock
  split_ifs <;> simp_all [State.emit, State.print]

theorem init_tail_h_ve_pll : (init_tail e r t).h_ve_pll = t.h_ve_pll := by
  unfold init_tail init_boot init_enable init_set_clock
  split_ifs <;> simp_all [State.emit, State.print]

end InitTail

section InitFinal

variable (e : Env) (s : State)

/-- The calls `mali_platform_init` adds to the record, in both cases. -/
theorem init_calls :
    (mali_platform_init e s).state.calls = s.calls ++
      [.clk_get "ahb_mali", .clk_get "mali", .clk_get "ve_pll",
       .clk_set_parent .h_mali_clk (e.clk_get "mali") .h_ve_pll (e.clk_get "ve_pll"),
       .clk_get_rate .h_ve_pll (e.clk_get "ve_pll")] ++
      (if toULong (init_fetch_config e s).mali_clk_div = 0 then []
       else
        [.clk_set_rate .h_mali_clk (e.clk_get "mali") (init_mali_rate e s),
         .clk_reset .h_mali_clk (e.clk_get "mali") 0] ++
        (if s.mali_clk_flag = 0 then
          [.clk_enable .h_ahb_mali (e.clk_get "ahb_mali"),
           .clk_enable .h_mali_clk (e.clk_get "mali")]
         else [])) := by
  by_cases h : toULong (init_fetch_config e s).mali_clk_div = 0
  · rw [init_state_zero e s h, init_at_div_calls, if_pos h]; simp
  · rw [init_state_nonzero e s h, if_neg h]
    have := init_tail_calls e (init_mali_rate e s) (init_at_div e s)
    unfold init_tail at this
    rw [this, init_at_div_calls, init_at_div_h_mali_clk, init_at_div_h_ahb_mali,
      init_at_div_mali_clk_flag]
    simp

/-- The divider `mali_platform_init` leaves in `mali_clk_div`. -/
theorem init_mali_clk_div :
    (mali_platform_init e s).state.mali_clk_div = (init_fetch_config e s).mali_clk_div := by
  by_cases h : toULong (init_fetch_config e s).mali_clk_div = 0
  · rw [init_state_zero e s h, init_at_div_mali_clk_div]
  · rw [init_state_nonzero e s h]
    have := init_tail_mali_clk_div e (init_mali_rate e s) (init_at_div e s)
    unfold init_tail at this
    rw [this, init_at_div_mali_clk_div]

/-- The flag `mali_platform_init` leaves in `mali_clk_flag`. -/
theorem init_mali_clk_flag :
    (mali_platform_init e s).state.mali_clk_flag =
      if toULong (init_fetch_config e s).mali_clk_div = 0 then s.mali_clk_flag
      else if s.mali_clk_flag = 0 then 1 else s.mali_clk_flag := by
  by_cases h : toULong (init_fetch_config e s).mali_clk_div = 0
  · rw [init_state_zero e s h, init_at_div_mali_clk_flag, if_pos h]
  · rw [init_state_nonzero e s h, if_neg h]
    have := init_tail_mali_clk_flag e (init_mali_rate e s) (init_at_div e s)
    unfold init_tail at this
    rw [this, init_at_div_mali_clk_flag]

theorem init_boost_on : (mali_platform_init e s).state.boost_on = s.boost_on := by
  by_cases h : toULong (init_fetch_config e s).mali_clk_div = 0
  · rw [init_state_zero e s h, init_at_div_boost_on]
  · rw [init_state_nonzero e s h]
    have := init_tail_boost_on e (init_mali_rate e s) (init_at_div e s)
    unfold init_tail at this
    rw [this, init_at_div_boost_on]

theorem init_boost_mutex : (mali_platform_init e s).state.boost_mutex = s.boost_mutex := by
  by_cases h : toULong (init_fetch_config e s).mali_clk_div = 0
  · rw [init_state_zero e s h, init_at_div_boost_mutex]
  · rw [init_state_nonzero e s h]
    have := init_tail_boost_mutex e (init_mali_rate e s) (init_at_div e s)
    unfold init_tail at this
    rw [this, init_at_div_boost_mutex]

theorem init_mali_boost_duration :
    (mali_platform_init e s).state.mali_boost_duration = s.mali_boost_duration := by
  by_cases h : toULong (init_fetch_config e s).mali_clk_div = 0
  · rw [init_state_zero e s h, init_at_div_mali_boost_duration]
  · rw [init_state_nonzero e s h]
    have := init_tail_mali_boost_duration e (init_mali_rate e s) (init_at_div e s)
    unfold init_tail at this
    rw [this, init_at_div_mali_boost_duration]

theorem init_h_ve_pll : (mali_platform_init e s).state.h_ve_pll = e.clk_get "ve_pll" := by
  by_cases h : toULong (init_fetch_config e s).mali_clk_div = 0
  · rw [init_state_zero e s h, init_at_div_h_ve_pll]
  · rw [init_state_nonzero e s h]
    have := init_tail_h_ve_pll e (init_mali_rate e s) (init_at_div e s)
    unfold init_tail at this
    rw [this, init_at_div_h_ve_pll]

end InitFinal

section Config

variable (e : Env) (s : State)

theorem init_fetch_config_supplied (v : Int) (h : config_supplies e v) :
    (init_fetch_config e s).mali_clk_div = v := by
  obtain ⟨h1, h2, h3⟩ := h
  simp [init_fetch_config, h1, h2, h3]

theorem init_fetch_config_not_supplied (h : ¬ ∃ v, config_supplies e v) :
    (init_fetch_config e s).mali_clk_div = s.mali_clk_div := by
  unfold init_fetch_config State.print
  split
  · rename_i used hused
    split
    · rename_i h1
      split
      · rename_i v hv
        split
        · rename_i hpos
          exact absurd ⟨v, by rw [hused, h1], hv, hpos⟩ h
        · rfl
      · rfl
    · rfl
  · rfl

theorem toULong_eq_zero_iff (x : Int) (h : isInt x) : toULong x = 0 ↔ x = 0 := by
  unfold isInt INT_MIN INT_MAX at h
  unfold toULong ULONG_BITS
  constructor
  · intro h0
    have : x % (2 : Int) ^ 32 ≤ 0 := by
      have := Int.toNat_eq_zero.mp h0
      exact this
    omega
  · intro h0
    subst h0
    rfl

theorem toULong_of_nonneg (x : Int) (h : isInt x) (h0 : 0 ≤ x) : (toULong x : Int) = x := by
  unfold isInt INT_MIN INT_MAX at h
  unfold toULong ULONG_BITS
  rw [Int.toNat_of_nonneg (by omega)]
  omega

end Config

/-! ## Claims about `mali_platform_init` -/

/-- C1: whatever rate is read from `ve_pll` and whatever the clock lookups and
the board configuration answer, `mali_platform_init` issues its clock-framework
calls in one fixed order: `clk_get` of "ahb_mali", "mali" and "ve_pll";
`clk_set_parent` of the mali clock to `ve_pll`; `clk_get_rate` of `ve_pll`;
`clk_set_rate` of the mali clock to that rate divided, as `unsigned long`, by
the `mali_clk_div` in force after the configuration lookup; `clk_reset` of the
mali clock with `0`; and after these, only when `mali_clk_flag` was `0`,
`clk_enable` of the ahb clock followed by `clk_enable` of the mali clock.  The
division has to be defined, that is, the divider is not zero; the call then
returns. -/
theorem C1_init_call_order (e : Env) (s : State)
    (hdiv : toULong (init_fetch_config e s).mali_clk_div ≠ 0) :
    mali_platform_init e s
      = .returned .MALI_OSK_ERR_OK (mali_platform_init e s).state ∧
    (mali_platform_init e s).state.calls = s.calls ++
      [.clk_get "ahb_mali", .clk_get "mali", .clk_get "ve_pll",
       .clk_set_parent .h_mali_clk (e.clk_get "mali") .h_ve_pll (e.clk_get "ve_pll"),
       .clk_get_rate .h_ve_pll (e.clk_get "ve_pll"),
       .clk_set_rate .h_mali_clk (e.clk_get "mali")
          (e.clk_get_rate (e.clk_get "ve_pll") % 2 ^ ULONG_BITS
            / toULong (init_fetch_config e s).mali_clk_div),
       .clk_reset .h_mali_clk (e.clk_get "mali") 0] ++
      (if s.mali_clk_flag = 0 then
        [.clk_enable .h_ahb_mali (e.clk_get "ahb_mali"),
         .clk_enable .h_mali_clk (e.clk_get "mali")]
       else []) := by
  refine ⟨init_returns e s hdiv, ?_⟩
  rw [init_calls, if_neg hdiv]
  simp [init_mali_rate]

/-- Witness for C1: the default state with every lookup succeeding and `ve_pll`
at 960 MHz. -/
theorem C1_init_call_order_witness :
    toULong (init_fetch_config (Env.ok 960000000 none none) State.initial).mali_clk_div ≠ 0 ∧
    (mali_platform_init (Env.ok 960000000 none none) State.initial).state.calls =
      [.clk_get "ahb_mali", .clk_get "mali", .clk_get "ve_pll",
       .clk_set_parent .h_mali_clk 2 .h_ve_pll 3,
       .clk_get_rate .h_ve_pll 3,
       .clk_set_rate .h_mali_clk 2 320000000,
       .clk_reset .h_mali_clk 2 0,
       .clk_enable .h_ahb_mali 1,
       .clk_enable .h_mali_clk 2] :=
  ⟨by decide,
   (C1_init_call_order (Env.ok 960000000 none none) State.initial (by decide)).2.trans
     (by decide)⟩

/-- C2, as stated, fails: with the default `mali_clk_div = 3` and a board
configuration holding `mali_used = 0` and `mali_clkdiv = 3`, `mali_clk_div`
equals the configuration's `mali_clkdiv` after the call although `mali_used`
is not `1`. -/
theorem C2_counterexample :
    (Env.ok 960000000 (some 0) (some 3)).script_parser_fetch "mali_para" "mali_clkdiv"
      = some 3 ∧
    ¬ ((mali_platform_init (Env.ok 960000000 (some 0) (some 3)) State.initial).state.mali_clk_div
          = 3 ↔
        config_supplies (Env.ok 960000000 (some 0) (some 3)) 3) := by
  decide

/-- C2, amended: after `mali_platform_init`, `mali_clk_div` is the board
configuration's `mali_clkdiv` value whenever `mali_used` was fetched as `1`,
`mali_clkdiv` was fetched and is greater than `0`; in every other case
`mali_clk_div` is exactly what it was before the call. -/
theorem C2_clk_div_after_init (e : Env) (s : State) :
    (∀ v, config_supplies e v → (mali_platform_init e s).state.mali_clk_div = v) ∧
    ((¬ ∃ v, config_supplies e v) →
      (mali_platform_init e s).state.mali_clk_div = s.mali_clk_div) := by
  constructor
  · intro v hv
    rw [init_mali_clk_div, init_fetch_config_supplied e s v hv]
  · intro h
    rw [init_mali_clk_div, init_fetch_config_not_supplied e s h]

/-- Witness for C2: a configuration that supplies the divider 4 replaces the
default 3, and a configuration without positive divider leaves 3 in place. -/
theorem C2_clk_div_after_init_witness :
    (mali_platform_init (Env.ok 960000000 (some 1) (some 4)) State.initial).state.mali_clk_div
      = 4 ∧
    (mali_platform_init (Env.ok 960000000 (some 1) (some 0)) State.initial).state.mali_clk_div
      = 3 :=
  ⟨(C2_clk_div_after_init (Env.ok 960000000 (some 1) (some 4)) State.initial).1 4
      (by decide),
   (C2_clk_div_after_init (Env.ok 960000000 (some 1) (some 0)) State.initial).2
      (by
        rintro ⟨v, _, h2, h3⟩
        have h4 : (some (0 : Int)) = some v := h2
        cases h4
        exact absurd h3 (by decide))⟩

/-- C8: for a `mali_clk_div` and a configured divider that are C `int` values,
`mali_platform_init` ends in the division by zero exactly when `mali_clk_div`
is `0` at entry and the board configuration does not supply a positive divider;
and if `mali_clk_div` is positive at entry, then whatever the configuration
answers the divider is positive, the call returns, and `mali_clk_div` is
positive on return. -/
theorem C8_division_by_zero (e : Env) (s : State) (hs : isInt s.mali_clk_div)
    (he : ∀ v ∈ e.script_parser_fetch "mali_para" "mali_clkdiv", isInt v) :
    ((∃ t, mali_platform_init e s = .div_by_zero t) ↔
      (s.mali_clk_div = 0 ∧ ¬ ∃ v, config_supplies e v)) ∧
    (0 < s.mali_clk_div →
      0 < (init_fetch_config e s).mali_clk_div ∧
      0 < toULong (init_fetch_config e s).mali_clk_div ∧
      ∃ t, mali_platform_init e s = .returned .MALI_OSK_ERR_OK t ∧ 0 < t.mali_clk_div) := by
  have hrange : isInt (init_fetch_config e s).mali_clk_div := by
    by_cases hc : ∃ v, config_supplies e v
    · obtain ⟨v, hv⟩ := hc
      rw [init_fetch_config_supplied e s v hv]
      exact he v (by simp [hv.2.1])
    · rw [init_fetch_config_not_supplied e s hc]; exact hs
  have hzero := toULong_eq_zero_iff _ hrange
  constructor
  · constructor
    · rintro ⟨t, ht⟩
      have hz : toULong (init_fetch_config e s).mali_clk_div = 0 := by
        by_contra hne
        rw [init_returns e s hne] at ht
        cases ht
      have hd := hzero.mp hz
      by_cases hc : ∃ v, config_supplies e v
      · obtain ⟨v, hv⟩ := hc
        rw [init_fetch_config_supplied e s v hv] at hd
        have := hv.2.2
        omega
      · rw [init_fetch_config_not_supplied e s hc] at hd
        exact ⟨hd, hc⟩
    · rintro ⟨h0, hc⟩
      have hd : (init_fetch_config e s).mali_clk_div = 0 := by
        rw [init_fetch_config_not_supplied e s hc]; exact h0
      exact ⟨_, init_div_by_zero e s (hzero.mpr hd)⟩
  · intro hpos
    have hd : 0 < (init_fetch_config e s).mali_clk_div := by
      by_cases hc : ∃ v, config_supplies e v
      · obtain ⟨v, hv⟩ := hc
        rw [init_fetch_config_supplied e s v hv]; exact hv.2.2
      · rw [init_fetch_config_not_supplied e s hc]; exact hpos
    have hne : toULong (init_fetch_config e s).mali_clk_div ≠ 0 := by
      intro h; have := hzero.mp h; omega
    refine ⟨hd, Nat.pos_of_ne_zero hne, _, init_returns e s hne, ?_⟩
    rw [init_mali_clk_div]; exact hd

/-- Witness for C8: the default state (`mali_clk_div = 3`) with a board
configuration that supplies the divider 4. -/
theorem C8_division_by_zero_witness :
    0 < (init_fetch_config (Env.ok 960000000 (some 1) (some 4)) State.initial).mali_clk_div ∧
    0 < toULong
      (init_fetch_config (Env.ok 960000000 (some 1) (some 4)) State.initial).mali_clk_div ∧
    ∃ t, mali_platform_init (Env.ok 960000000 (some 1) (some 4)) State.initial
        = .returned .MALI_OSK_ERR_OK t ∧ 0 < t.mali_clk_div :=
  (C8_division_by_zero (Env.ok 960000000 (some 1) (some 4)) State.initial
      (by decide) (by decide)).2 (by decide)

/-! ## What `mali_boost` and `boost` do -/

section Boost

variable (e : Env) (s : State)

theorem mali_boost_of_boost_on (h : s.boost_on = true) :
    mali_boost e s = .returned (-1) s := by
  unfold mali_boost; rw [if_pos h]

theorem mali_boost_of_locked (h1 : s.boost_on = false) (h2 : s.boost_mutex = true) :
    mali_boost e s = .blocked s := by
  unfold mali_boost; simp [h1, h2]

theorem mali_boost_of_lookup_failed (h1 : s.boost_on = false) (h2 : s.boost_mutex = false)
    (h3 : e.clk_get "ve_pll" = 0) :
    mali_boost e s = .returned (-1)
      { s with boost_mutex := true, calls := s.calls ++ [.clk_get "ve_pll"], h_ve_pll := 0 } := by
  unfold mali_boost; simp [h1, h2, h3, State.emit]

theorem mali_boost_of_lookup_ok (h1 : s.boost_on = false) (h2 : s.boost_mutex = false)
    (h3 : e.clk_get "ve_pll" ≠ 0) :
    mali_boost e s =
      match mali_platform_init e (mali_boost_entry e s) with
      | .returned _ t => .returned 0 (mali_boost_exit t)
      | .div_by_zero t => .div_by_zero t
      | .blocked t => .blocked t := by
  unfold mali_boost; simp [h1, h2, h3, State.emit, mali_boost_entry, mali_boost_exit]

theorem boost_of_locked (h : s.boost_mutex = true) : boost e s = .blocked s := by
  unfold boost; simp [h]

theorem boost_of_unlocked (h : s.boost_mutex = false) :
    boost e s =
      match mali_platform_init e (boost_entry e s) with
      | .returned _ t => .returned () (boost_exit t)
      | .div_by_zero t => .div_by_zero t
      | .blocked t => .blocked t := by
  unfold boost; simp [h, State.emit, boost_entry, boost_exit]

end Boost

section BoostFields

variable (e : Env) (s : State)

theorem toULong_MALI_INIT_RATE : toULong MALI_INIT_RATE = 960000000 := by decide

theorem mali_boost_entry_calls :
    (mali_boost_entry e s).calls = s.calls ++
      [.clk_get "ve_pll", .clk_set_rate .h_ve_pll (e.clk_get "ve_pll") (boost_rate_hz s)] := by
  simp [mali_boost_entry, State.emit, boost_rate_hz]

theorem mali_boost_entry_mali_clk_flag :
    (mali_boost_entry e s).mali_clk_flag = s.mali_clk_flag := by
  simp [mali_boost_entry, State.emit]

theorem mali_boost_entry_mali_clk_div :
    (mali_boost_entry e s).mali_clk_div = s.mali_clk_div := by
  simp [mali_boost_entry, State.emit]

theorem mali_boost_entry_mali_boost_duration :
    (mali_boost_entry e s).mali_boost_duration = s.mali_boost_duration := by
  simp [mali_boost_entry, State.emit]

theorem boost_entry_calls :
    (boost_entry e s).calls = s.calls ++
      [.clk_get "ve_pll", .clk_set_rate .h_ve_pll (e.clk_get "ve_pll") 960000000] := by
  simp [boost_entry, State.emit, toULong_MALI_INIT_RATE]

theorem boost_entry_mali_clk_flag : (boost_entry e s).mali_clk_flag = s.mali_clk_flag := by
  simp [boost_entry, State.emit]

theorem boost_entry_mali_clk_div : (boost_entry e s).mali_clk_div = s.mali_clk_div := by
  simp [boost_entry, State.emit]

/-- The divider `mali_platform_init` uses inside `mali_boost` is the one it
would use on the state `mali_boost` was entered with. -/
theorem mali_boost_entry_divider :
    (init_fetch_config e (mali_boost_entry e s)).mali_clk_div
      = (init_fetch_config e s).mali_clk_div :=
  init_fetch_config_mali_clk_div_congr e _ _ (mali_boost_entry_mali_clk_div e s)

/-- The divider `mali_platform_init` uses inside `boost`. -/
theorem boost_entry_divider :
    (init_fetch_config e (boost_entry e s)).mali_clk_div
      = (init_fetch_config e s).mali_clk_div :=
  init_fetch_config_mali_clk_div_congr e _ _ (boost_entry_mali_clk_div e s)

/-- An accepted boost request: flag clear, mutex free, lookup successful and
divider not zero. -/
theorem mali_boost_accepted (h1 : s.boost_on = false) (h2 : s.boost_mutex = false)
    (h3 : e.clk_get "ve_pll" ≠ 0)
    (hdiv : toULong (init_fetch_config e s).mali_clk_div ≠ 0) :
    mali_boost e s = .returned 0
      (mali_boost_exit (mali_platform_init e (mali_boost_entry e s)).state) := by
  rw [mali_boost_of_lookup_ok e s h1 h2 h3,
    init_returns e (mali_boost_entry e s) (by rw [mali_boost_entry_divider]; exact hdiv)]
  rfl

/-- The work callback entered with the mutex free and a divider that is not
zero. -/
theorem boost_completes (h : s.boost_mutex = false)
    (hdiv : toULong (init_fetch_config e s).mali_clk_div ≠ 0) :
    boost e s = .returned ()
      (boost_exit (mali_platform_init e (boost_entry e s)).state) := by
  rw [boost_of_unlocked e s h,
    init_returns e (boost_entry e s) (by rw [boost_entry_divider]; exact hdiv)]
  rfl

/-- A boost request that returns `0` was entered with the flag clear and the
mutex free, found `ve_pll`, and met a divider that is not zero. -/
theorem mali_boost_returned_zero (s1 : State) (h : mali_boost e s = .returned 0 s1) :
    s.boost_on = false ∧ s.boost_mutex = false ∧ e.clk_get "ve_pll" ≠ 0 ∧
    toULong (init_fetch_config e s).mali_clk_div ≠ 0 := by
  have h1 : s.boost_on = false := by
    by_contra hc
    rw [mali_boost_of_boost_on e s (by simpa using hc)] at h
    cases h
  have h2 : s.boost_mutex = false := by
    by_contra hc
    rw [mali_boost_of_locked e s h1 (by simpa using hc)] at h
    cases h
  have h3 : e.clk_get "ve_pll" ≠ 0 := by
    intro hc
    rw [mali_boost_of_lookup_failed e s h1 h2 hc] at h
    cases h
  refine ⟨h1, h2, h3, ?_⟩
  intro hc
  rw [mali_boost_of_lookup_ok e s h1 h2 h3,
    init_div_by_zero e (mali_boost_entry e s) (by rw [mali_boost_entry_divider]; exact hc)] at h
  cases h

/-- A work callback that returns was entered with the mutex free and met a
divider that is not zero. -/
theorem boost_returned (s1 : State) (h : boost e s = .returned () s1) :
    s.boost_mutex = false ∧ toULong (init_fetch_config e s).mali_clk_div ≠ 0 := by
  have h2 : s.boost_mutex = false := by
    by_contra hc
    rw [boost_of_locked e s (by simpa using hc)] at h
    cases h
  refine ⟨h2, ?_⟩
  intro hc
  rw [boost_of_unlocked e s h2,
    init_div_by_zero e (boost_entry e s) (by rw [boost_entry_divider]; exact hc)] at h
  cases h

end BoostFields

section Rates

variable (e : Env) (s : State)

theorem last_set_rate_append (v : ClkVar) (l1 l2 : List Call) :
    last_set_rate v (l1 ++ l2) =
      match last_set_rate v l2 with
      | some r => some r
      | none => last_set_rate v l1 := by
  induction l1 with
  | nil => cases h : last_set_rate v l2 <;> simp [last_set_rate, h]
  | cons c l1 ih =>
    simp only [List.cons_append, last_set_rate, List.append_eq]
    rw [ih]
    cases last_set_rate v l2 <;> simp

/-- A returning `mali_platform_init` requests no rate for `ve_pll`. -/
theorem init_last_set_rate_ve_pll (hdiv : toULong (init_fetch_config e s).mali_clk_div ≠ 0) :
    last_set_rate .h_ve_pll (mali_platform_init e s).state.calls
      = last_set_rate .h_ve_pll s.calls := by
  rw [init_calls, if_neg hdiv]
  split_ifs <;> simp [last_set_rate, requested_rate, last_set_rate_append]

/-- A returning `mali_platform_init` requests, for the mali clock, the rate
read back from `ve_pll` divided by the divider. -/
theorem init_last_set_rate_mali (hdiv : toULong (init_fetch_config e s).mali_clk_div ≠ 0) :
    last_set_rate .h_mali_clk (mali_platform_init e s).state.calls
      = some (init_mali_rate e s) := by
  rw [init_calls, if_neg hdiv]
  split_ifs <;> simp [last_set_rate, requested_rate, last_set_rate_append]

end Rates

/-! ## Claims about the boost -/

/-- C4, as stated, fails: `mali_platform_init` finds `ve_pll` at 1008 MHz and
requests 336 MHz for the mali clock; a boost request is then accepted and the
work callback runs; afterwards the rate requested for `ve_pll` is 960 MHz, not
1008 MHz, and the rate requested for the mali clock is 320 MHz, not 336 MHz. -/
theorem C4_counterexample :
    last_set_rate .h_mali_clk
        (mali_platform_init (Env.ok 1008000000 none none) State.initial).state.calls
      = some (1008000000 / 3) ∧
    mali_boost (Env.ok 1200000000 none none)
        (mali_platform_init (Env.ok 1008000000 none none) State.initial).state
      = .returned 0 (mali_boost (Env.ok 1200000000 none none)
          (mali_platform_init (Env.ok 1008000000 none none) State.initial).state).state ∧
    boost (Env.ok 960000000 none none)
        (mali_boost (Env.ok 1200000000 none none)
          (mali_platform_init (Env.ok 1008000000 none none) State.initial).state).state
      = .returned () (boost (Env.ok 960000000 none none)
          (mali_boost (Env.ok 1200000000 none none)
            (mali_platform_init (Env.ok 1008000000 none none) State.initial).state).state).state ∧
    last_set_rate .h_ve_pll (boost (Env.ok 960000000 none none)
        (mali_boost (Env.ok 1200000000 none none)
          (mali_platform_init (Env.ok 1008000000 none none) State.initial).state).state).state.calls
      = some 960000000 ∧
    ¬ (last_set_rate .h_ve_pll (boost (Env.ok 960000000 none none)
        (mali_boost (Env.ok 1200000000 none none)
          (mali_platform_init (Env.ok 1008000000 none none) State.initial).state).state).state.calls
      = some 1008000000) ∧
    ¬ (last_set_rate .h_mali_clk (boost (Env.ok 960000000 none none)
        (mali_boost (Env.ok 1200000000 none none)
          (mali_platform_init (Env.ok 1008000000 none none) State.initial).state).state).state.calls
      = some (1008000000 / 3)) := by
  decide

/-- C4, amended: the boost is temporary.  After a `mali_boost` that returns `0`
the rate requested for `ve_pll` is `mali_boost_rate * 1000000`; after the work
callback that follows it the rate requested for `ve_pll` is `MALI_INIT_RATE`,
960000000 Hz, whatever rate was in effect before the boost, and the rate
requested for the mali clock is the rate then read back from `ve_pll` divided
by `mali_clk_div`. -/
theorem C4_boost_is_temporary (e1 e2 : Env) (s s1 s2 : State)
    (h1 : mali_boost e1 s = .returned 0 s1)
    (h2 : boost e2 s1 = .returned () s2) :
    last_set_rate .h_ve_pll s1.calls = some (boost_rate_hz s) ∧
    last_set_rate .h_ve_pll s2.calls = some 960000000 ∧
    last_set_rate .h_mali_clk s2.calls
      = some (e2.clk_get_rate (e2.clk_get "ve_pll") % 2 ^ ULONG_BITS
          / toULong s2.mali_clk_div) := by
  obtain ⟨a1, a2, a3, a4⟩ := mali_boost_returned_zero e1 s s1 h1
  obtain ⟨b1, b2⟩ := boost_returned e2 s1 s2 h2
  have hs1 := mali_boost_accepted e1 s a1 a2 a3 a4
  rw [h1] at hs1
  have hs2 := boost_completes e2 s1 b1 b2
  rw [h2] at hs2
  injection hs1 with _ hs1
  injection hs2 with _ hs2
  have d1 : toULong (init_fetch_config e1 (mali_boost_entry e1 s)).mali_clk_div ≠ 0 := by
    rw [mali_boost_entry_divider]; exact a4
  have d2 : toULong (init_fetch_config e2 (boost_entry e2 s1)).mali_clk_div ≠ 0 := by
    rw [boost_entry_divider]; exact b2
  have c1 : s1.calls = (mali_platform_init e1 (mali_boost_entry e1 s)).state.calls := by
    rw [hs1]; rfl
  have c2 : s2.calls = (mali_platform_init e2 (boost_entry e2 s1)).state.calls := by
    rw [hs2]; rfl
  have c3 : s2.mali_clk_div = (init_fetch_config e2 (boost_entry e2 s1)).mali_clk_div := by
    rw [hs2, ← init_mali_clk_div]; rfl
  refine ⟨?_, ?_, ?_⟩
  · rw [c1, init_last_set_rate_ve_pll _ _ d1, mali_boost_entry_calls, last_set_rate_append]
    simp [last_set_rate, requested_rate]
  · rw [c2, init_last_set_rate_ve_pll _ _ d2, boost_entry_calls, last_set_rate_append]
    simp [last_set_rate, requested_rate]
  · rw [c2, init_last_set_rate_mali _ _ d2, c3]
    rfl

/-- Witness for C4: the default state, a boost request and its expiry, every
lookup succeeding. -/
theorem C4_boost_is_temporary_witness :
    last_set_rate .h_ve_pll
        (mali_boost (Env.ok 1200000000 none none) State.initial).state.calls
      = some (boost_rate_hz State.initial) ∧
    last_set_rate .h_ve_pll
        (boost (Env.ok 960000000 none none)
          (mali_boost (Env.ok 1200000000 none none) State.initial).state).state.calls
      = some 960000000 ∧
    last_set_rate .h_mali_clk
        (boost (Env.ok 960000000 none none)
          (mali_boost (Env.ok 1200000000 none none) State.initial).state).state.calls
      = some ((Env.ok 960000000 none none).clk_get_rate
            ((Env.ok 960000000 none none).clk_get "ve_pll") % 2 ^ ULONG_BITS
          / toULong (boost (Env.ok 960000000 none none)
              (mali_boost (Env.ok 1200000000 none none) State.initial).state).state.mali_clk_div) :=
  C4_boost_is_temporary (Env.ok 1200000000 none none) (Env.ok 960000000 none none)
    State.initial
    (mali_boost (Env.ok 1200000000 none none) State.initial).state
    (boost (Env.ok 960000000 none none)
      (mali_boost (Env.ok 1200000000 none none) State.initial).state).state
    (by decide) (by decide)

section Mutex

variable (e : Env) (s : State)

/-- An accepted boost request leaves the flag set, the mutex free and the timer
armed for `mali_boost_duration` milliseconds. -/
theorem mali_boost_accepted_state (h1 : s.boost_on = false) (h2 : s.boost_mutex = false)
    (h3 : e.clk_get "ve_pll" ≠ 0)
    (hdiv : toULong (init_fetch_config e s).mali_clk_div ≠ 0) :
    ∃ t, mali_boost e s = .returned 0 t ∧ t.boost_on = true ∧ t.boost_mutex = false ∧
      t.boost_timer.pending = some s.mali_boost_duration := by
  refine ⟨_, mali_boost_accepted e s h1 h2 h3 hdiv, rfl, rfl, ?_⟩
  show some (mali_platform_init e (mali_boost_entry e s)).state.mali_boost_duration = _
  rw [init_mali_boost_duration, mali_boost_entry_mali_boost_duration]

/-- The work callback, entered with the mutex free and a divider that is not
zero, requests 960000000 Hz for `ve_pll`, runs `mali_platform_init`, clears the
flag and frees the mutex. -/
theorem boost_completes_state (h : s.boost_mutex = false)
    (hdiv : toULong (init_fetch_config e s).mali_clk_div ≠ 0) :
    ∃ t, boost e s = .returned () t ∧ t.boost_on = false ∧ t.boost_mutex = false ∧
      t.calls = s.calls ++
        [.clk_get "ve_pll", .clk_set_rate .h_ve_pll (e.clk_get "ve_pll") 960000000,
         .clk_get "ahb_mali", .clk_get "mali", .clk_get "ve_pll",
         .clk_set_parent .h_mali_clk (e.clk_get "mali") .h_ve_pll (e.clk_get "ve_pll"),
         .clk_get_rate .h_ve_pll (e.clk_get "ve_pll"),
         .clk_set_rate .h_mali_clk (e.clk_get "mali") (init_mali_rate e s),
         .clk_reset .h_mali_clk (e.clk_get "mali") 0] ++
        (if s.mali_clk_flag = 0 then
          [.clk_enable .h_ahb_mali (e.clk_get "ahb_mali"),
           .clk_enable .h_mali_clk (e.clk_get "mali")]
         else []) := by
  refine ⟨_, boost_completes e s h hdiv, rfl, rfl, ?_⟩
  show (mali_platform_init e (boost_entry e s)).state.calls = _
  have hd : toULong (init_fetch_config e (boost_entry e s)).mali_clk_div ≠ 0 := by
    rw [boost_entry_divider]; exact hdiv
  have hr : init_mali_rate e (boost_entry e s) = init_mali_rate e s := by
    unfold init_mali_rate; rw [boost_entry_divider]
  rw [init_calls, if_neg hd, boost_entry_calls, boost_entry_mali_clk_flag, hr]
  simp

end Mutex

/-- C5, at the failing input: entered with `boost_mutex` free and with the
`ve_pll` lookup failing, `mali_boost` returns `-1` and leaves `boost_mutex`
held.  The claim says it returns with the mutex unlocked. -/
theorem C5_failed_lookup_leaves_mutex_held :
    State.initial.boost_mutex = false ∧
    Env.failing.clk_get "ve_pll" = 0 ∧
    mali_boost Env.failing State.initial
      = .returned (-1)
          { State.initial with boost_mutex := true, calls := [.clk_get "ve_pll"] } ∧
    (mali_boost Env.failing State.initial).state.boost_mutex = true := by
  decide

/-- C6: when `boost_on` is set, `mali_boost` returns `-1` and the state is
unchanged: no clock-framework call is recorded, the mutex is not taken, the
timer is not re-armed, and `boost_on`, `mali_clk_div` and `mali_clk_flag` keep
their values. -/
theorem C6_boost_rejected_while_on (e : Env) (s : State) (h : s.boost_on = true) :
    mali_boost e s = .returned (-1) s :=
  mali_boost_of_boost_on e s h

/-- Witness for C6: the state left by an accepted boost request. -/
theorem C6_boost_rejected_while_on_witness :
    mali_boost (Env.ok 1200000000 none none)
        (mali_boost (Env.ok 1200000000 none none) State.initial).state
      = .returned (-1) (mali_boost (Env.ok 1200000000 none none) State.initial).state :=
  C6_boost_rejected_while_on (Env.ok 1200000000 none none)
    (mali_boost (Env.ok 1200000000 none none) State.initial).state (by decide)

/-- C7, at the failing input: after a `mali_boost` whose `ve_pll` lookup failed,
`boost_on` is clear; a second `mali_boost` whose lookup succeeds does not
return `0` but blocks in `mutex_lock`, and so does the work callback.  The
claim says such a request returns `0`, sets `boost_on` and arms the timer. -/
theorem C7_request_blocks_after_failed_lookup :
    (mali_boost Env.failing State.initial).state.boost_on = false ∧
    (Env.ok 1200000000 none none).clk_get "ve_pll" ≠ 0 ∧
    mali_boost (Env.ok 1200000000 none none) (mali_boost Env.failing State.initial).state
      = .blocked (mali_boost Env.failing State.initial).state ∧
    boost (Env.ok 960000000 none none) (mali_boost Env.failing State.initial).state
      = .blocked (mali_boost Env.failing State.initial).state := by
  decide

/-- The calls on record when `mali_boost` ends, once it has passed the flag, the
mutex and the lookup, are those on record when its `mali_platform_init` ends. -/
theorem mali_boost_calls_of_lookup_ok (e : Env) (s : State)
    (h1 : s.boost_on = false) (h2 : s.boost_mutex = false)
    (h3 : e.clk_get "ve_pll" ≠ 0) :
    (mali_boost e s).state.calls
      = (mali_platform_init e (mali_boost_entry e s)).state.calls := by
  rw [mali_boost_of_lookup_ok e s h1 h2 h3]
  cases mali_platform_init e (mali_boost_entry e s) <;> rfl

/-- The function `mali_platform_init` requests no rate for `ve_pll`, whether it
returns or ends in the division. -/
theorem init_keeps_last_set_rate_ve_pll (e : Env) (s : State) :
    last_set_rate .h_ve_pll (mali_platform_init e s).state.calls
      = last_set_rate .h_ve_pll s.calls := by
  rw [init_calls]
  split_ifs <;> simp [last_set_rate, requested_rate, last_set_rate_append]

/-- C9: the rate `mali_boost` requests for `ve_pll` is `mali_boost_rate * 1000000`
computed in `int`.  For `0 ≤ mali_boost_rate ≤ 2147` the product is
representable in `int` and the `int` multiplication yields it; a `mali_boost`
that gets past the flag, the mutex and the lookup records, right after its
`clk_get` of "ve_pll", a `clk_set_rate` of `ve_pll` to exactly that many Hz,
and that is the rate requested for `ve_pll` when the call ends; the default
`mali_boost_rate` is 1200 and gives 1200000000, which is `MALI400_BOOST_RATE`;
and every value above 2147, 2148 first, has a product above `INT_MAX`. -/
theorem C9_boost_rate_product (e : Env) (s : State)
    (h0 : 0 ≤ s.mali_boost_rate) (h1 : s.mali_boost_rate ≤ 2147)
    (hon : s.boost_on = false) (hmutex : s.boost_mutex = false)
    (hlookup : e.clk_get "ve_pll" ≠ 0) :
    isInt (s.mali_boost_rate * 1000000) ∧
    int_mul s.mali_boost_rate 1000000 = s.mali_boost_rate * 1000000 ∧
    (∃ rest, (mali_boost e s).state.calls = s.calls ++
        [.clk_get "ve_pll",
         .clk_set_rate .h_ve_pll (e.clk_get "ve_pll")
            (s.mali_boost_rate * 1000000).toNat] ++ rest) ∧
    last_set_rate .h_ve_pll (mali_boost e s).state.calls
      = some (s.mali_boost_rate * 1000000).toNat ∧
    (State.initial.mali_boost_rate = 1200 ∧
      last_set_rate .h_ve_pll (mali_boost e State.initial).state.calls
        = some 1200000000 ∧
      MALI400_BOOST_RATE = 1200000000) ∧
    INT_MAX < 2148 * 1000000 ∧
    (∀ x : Int, 2147 < x → INT_MAX < x * 1000000) := by
  have hm : int_mul s.mali_boost_rate 1000000 = s.mali_boost_rate * 1000000 := by
    unfold int_mul wrapInt; omega
  have hz : (boost_rate_hz s : Int) = s.mali_boost_rate * 1000000 := by
    unfold boost_rate_hz
    rw [hm]
    exact toULong_of_nonneg _ (by unfold isInt INT_MIN INT_MAX; omega) (by omega)
  have hn : boost_rate_hz s = (s.mali_boost_rate * 1000000).toNat := by
    rw [← hz]; rfl
  have hcalls := mali_boost_calls_of_lookup_ok e s hon hmutex hlookup
  refine ⟨?_, hm, ?_, ?_, ⟨by decide, ?_, by decide⟩, by decide, ?_⟩
  · unfold isInt INT_MIN INT_MAX; omega
  · rw [hcalls, init_calls, mali_boost_entry_calls, hn]
    exact ⟨_, by rw [List.append_assoc]⟩
  · rw [hcalls, init_keeps_last_set_rate_ve_pll, mali_boost_entry_calls,
      last_set_rate_append, hn]
    simp [last_set_rate, requested_rate]
  · rw [mali_boost_calls_of_lookup_ok e State.initial rfl rfl hlookup,
      init_keeps_last_set_rate_ve_pll, mali_boost_entry_calls, last_set_rate_append]
    simp only [last_set_rate, requested_rate, if_true]
    decide
  · intro x hx
    unfold INT_MAX; omega

/-- Witness for C9: the default state, every lookup succeeding; `mali_boost`
requests 1200000000 Hz for `ve_pll`. -/
theorem C9_boost_rate_product_witness :
    last_set_rate .h_ve_pll
        (mali_boost (Env.ok 1200000000 none none) State.initial).state.calls
      = some (State.initial.mali_boost_rate * 1000000).toNat ∧
    (State.initial.mali_boost_rate * 1000000).toNat = 1200000000 :=
  ⟨(C9_boost_rate_product (Env.ok 1200000000 none none) State.initial
      (by decide) (by decide) (by decide) (by decide) (by decide)).2.2.2.1,
   by decide⟩

/-- Whenever the divider is not zero `mali_platform_init` returns the success
code, also when every lookup and every clock call fails. -/
theorem init_success_despite_failures :
    mali_platform_init Env.failing State.initial
      = .returned .MALI_OSK_ERR_OK (mali_platform_init Env.failing State.initial).state ∧
    (mali_platform_init Env.failing State.initial).state.log =
      [.get_ahb_failed, .get_mali_failed, .get_ve_pll_failed, .set_parent_failed,
       .debug_clk_div 3, .set_rate_failed, .reset_release_failed, .debug_clock_set 0,
       .enable_ahb_failed, .enable_mali_failed, .boot_clk_div 3, .boot_clock_set 0] := by
  decide

/-- The function `mali_platform_deinit` returns the success code in every
state. -/
theorem deinit_returns (s : State) :
    mali_platform_deinit s = .returned .MALI_OSK_ERR_OK (mali_platform_deinit s).state := by
  rfl

/-- The three empty hooks return at once and leave the state as it is. -/
theorem hooks_leave_state (mode : Int) (utilization dev : Nat) (s : State) :
    mali_platform_power_mode_change mode s = .returned .MALI_OSK_ERR_OK s ∧
    mali_gpu_utilization_handler utilization s = .returned () s ∧
    set_mali_parent_power_domain dev s = .returned () s :=
  ⟨rfl, rfl, rfl⟩

/-- C10, at the failing input: with `mali_clk_div = 0` and a board configuration
that supplies no divider, `mali_platform_init` divides by zero and does not
return the success code.  The claim says it returns success in every state. -/
theorem C10_init_zero_divider_no_return :
    (∃ t, mali_platform_init (Env.ok 960000000 none none)
        { State.initial with mali_clk_div := 0 } = .div_by_zero t) ∧
    ¬ ∃ t, mali_platform_init (Env.ok 960000000 none none)
        { State.initial with mali_clk_div := 0 } = .returned .MALI_OSK_ERR_OK t := by
  have h := init_div_by_zero (Env.ok 960000000 none none)
    { State.initial with mali_clk_div := 0 } (by decide)
  refine ⟨⟨_, h⟩, ?_⟩
  rintro ⟨t, ht⟩
  rw [h] at ht
  cases ht

/-! ## The enable/disable balance -/

section Balance

theorem balance_append (v : ClkVar) (l1 l2 : List Call) :
    balance v (l1 ++ l2) = balance v l1 + balance v l2 := by
  unfold balance enables disables
  rw [List.countP_append, List.countP_append]
  push_cast
  ring

/-- A state that differs from an invariant one by calls of balance zero and
keeps the flag is invariant. -/
theorem clocks_match_flag_of_neutral (s t : State) (l : List Call)
    (hc : t.calls = s.calls ++ l) (hf : t.mali_clk_flag = s.mali_clk_flag)
    (ha : balance .h_ahb_mali l = 0) (hm : balance .h_mali_clk l = 0)
    (h : clocks_match_flag s) : clocks_match_flag t := by
  obtain ⟨h1, h2, h3⟩ := h
  unfold clocks_match_flag
  rw [hc, hf, balance_append, balance_append, ha, hm, h1, h2]
  simp [h3]

theorem clocks_match_flag_init (e : Env) (s : State) (h : clocks_match_flag s) :
    clocks_match_flag (mali_platform_init e s).state := by
  obtain ⟨h1, h2, h3⟩ := h
  unfold clocks_match_flag
  rw [init_calls, init_mali_clk_flag]
  by_cases hd : toULong (init_fetch_config e s).mali_clk_div = 0
  · rw [if_pos hd, if_pos hd]
    simp only [balance_append, h1, h2]
    simp [balance, enables, disables, h3]
  · rw [if_neg hd, if_neg hd]
    by_cases hf : s.mali_clk_flag = 0
    · rw [if_pos hf, if_pos hf]
      simp only [balance_append, h1, h2, hf]
      simp [balance, enables, disables]
    · rw [if_neg hf, if_neg hf]
      simp only [balance_append, h1, h2]
      simp [balance, enables, disables, h3]

theorem clocks_match_flag_deinit (s : State) (h : clocks_match_flag s) :
    clocks_match_flag (mali_platform_deinit s).state := by
  obtain ⟨h1, h2, h3⟩ := h
  unfold mali_platform_deinit clocks_match_flag
  simp only [Outcome.state]
  split_ifs with hf
  · simp only [State.emit, balance_append]
    rw [hf] at h1 h2
    rw [h1, h2]
    simp [balance, enables, disables]
  · exact ⟨h1, h2, h3⟩

theorem clocks_match_flag_mali_boost (e : Env) (s : State) (h : clocks_match_flag s) :
    clocks_match_flag (mali_boost e s).state := by
  by_cases h1 : s.boost_on = true
  · rw [mali_boost_of_boost_on e s h1]; exact h
  have h1 : s.boost_on = false := by simpa using h1
  by_cases h2 : s.boost_mutex = true
  · rw [mali_boost_of_locked e s h1 h2]; exact h
  have h2 : s.boost_mutex = false := by simpa using h2
  by_cases h3 : e.clk_get "ve_pll" = 0
  · rw [mali_boost_of_lookup_failed e s h1 h2 h3]
    exact clocks_match_flag_of_neutral s _ [.clk_get "ve_pll"] rfl rfl
      (by simp [balance, enables, disables]) (by simp [balance, enables, disables]) h
  · have hentry : clocks_match_flag (mali_boost_entry e s) :=
      clocks_match_flag_of_neutral s _ _ (mali_boost_entry_calls e s)
        (mali_boost_entry_mali_clk_flag e s)
        (by simp [balance, enables, disables]) (by simp [balance, enables, disables]) h
    have hinit := clocks_match_flag_init e _ hentry
    rw [mali_boost_of_lookup_ok e s h1 h2 h3]
    cases hi : mali_platform_init e (mali_boost_entry e s) with
    | returned r t => rw [hi] at hinit; exact hinit
    | div_by_zero t => rw [hi] at hinit; exact hinit
    | blocked t => rw [hi] at hinit; exact hinit

theorem clocks_match_flag_boost (e : Env) (s : State) (h : clocks_match_flag s) :
    clocks_match_flag (boost e s).state := by
  by_cases h2 : s.boost_mutex = true
  · rw [boost_of_locked e s h2]; exact h
  have h2 : s.boost_mutex = false := by simpa using h2
  have hentry : clocks_match_flag (boost_entry e s) :=
    clocks_match_flag_of_neutral s _ _ (boost_entry_calls e s)
      (boost_entry_mali_clk_flag e s)
      (by simp [balance, enables, disables]) (by simp [balance, enables, disables]) h
  have hinit := clocks_match_flag_init e _ hentry
  rw [boost_of_unlocked e s h2]
  cases hi : mali_platform_init e (boost_entry e s) with
  | returned r t => rw [hi] at hinit; exact hinit
  | div_by_zero t => rw [hi] at hinit; exact hinit
  | blocked t => rw [hi] at hinit; exact hinit

theorem step_state (op : Op) (e : Env) (s : State) :
    (step op e s).1 =
      match op with
      | .init => (mali_platform_init e s).state
      | .deinit => (mali_platform_deinit s).state
      | .boost_request => (mali_boost e s).state
      | .boost_expiry => (boost e s).state := by
  cases op
  · simp only [step]; cases mali_platform_init e s <;> rfl
  · simp only [step]; cases mali_platform_deinit s <;> rfl
  · simp only [step]; cases mali_boost e s <;> rfl
  · simp only [step]; cases boost e s <;> rfl

theorem clocks_match_flag_step (op : Op) (e : Env) (s : State) (h : clocks_match_flag s) :
    clocks_match_flag (step op e s).1 := by
  rw [step_state]
  cases op
  · exact clocks_match_flag_init e s h
  · exact clocks_match_flag_deinit s h
  · exact clocks_match_flag_mali_boost e s h
  · exact clocks_match_flag_boost e s h

theorem clocks_match_flag_run (ops : List (Op × Env)) (s : State)
    (h : clocks_match_flag s) : clocks_match_flag (run ops s) := by
  induction ops generalizing s with
  | nil => exact h
  | cons oe rest ih =>
    obtain ⟨op, e⟩ := oe
    have hs := clocks_match_flag_step op e s h
    unfold run
    cases hstep : step op e s with
    | mk t b =>
      rw [hstep] at hs
      cases b
      · exact hs
      · exact ih t hs

end Balance

/-- C3: starting with `mali_clk_flag = 0` and no clock enabled, after every
finite sequence of calls of `mali_platform_init`, `mali_platform_deinit`,
`mali_boost` and the work callback `boost`, whatever the environment answers
in each call, the number of `clk_enable` calls minus the number of
`clk_disable` calls is the same for the ahb clock and for the mali clock,
equals `mali_clk_flag`, and is `0` or `1`. -/
theorem C3_enable_disable_balance (ops : List (Op × Env)) (s : State)
    (hflag : s.mali_clk_flag = 0)
    (hahb : balance .h_ahb_mali s.calls = 0)
    (hmali : balance .h_mali_clk s.calls = 0) :
    balance .h_ahb_mali (run ops s).calls = balance .h_mali_clk (run ops s).calls ∧
    balance .h_mali_clk (run ops s).calls = (run ops s).mali_clk_flag ∧
    ((run ops s).mali_clk_flag = 0 ∨ (run ops s).mali_clk_flag = 1) := by
  have h0 : clocks_match_flag s := ⟨by rw [hahb, hflag], by rw [hmali, hflag], Or.inl hflag⟩
  obtain ⟨h1, h2, h3⟩ := clocks_match_flag_run ops s h0
  exact ⟨by rw [h1, h2], h2, h3⟩

/-- Witness for C3: init twice, a boost and its expiry, then deinit twice, from
the initial state; the balance ends at `0` for both clocks. -/
theorem C3_enable_disable_balance_witness :
    balance .h_ahb_mali (run
        [(.init, Env.ok 960000000 none none), (.init, Env.ok 960000000 none none),
         (.boost_request, Env.ok 1200000000 none none),
         (.boost_expiry, Env.ok 960000000 none none),
         (.deinit, Env.failing), (.deinit, Env.failing)] State.initial).calls
      = balance .h_mali_clk (run
        [(.init, Env.ok 960000000 none none), (.init, Env.ok 960000000 none none),
         (.boost_request, Env.ok 1200000000 none none),
         (.boost_expiry, Env.ok 960000000 none none),
         (.deinit, Env.failing), (.deinit, Env.failing)] State.initial).calls ∧
    balance .h_mali_clk (run
        [(.init, Env.ok 960000000 none none), (.init, Env.ok 960000000 none none),
         (.boost_request, Env.ok 1200000000 none none),
         (.boost_expiry, Env.ok 960000000 none none),
         (.deinit, Env.failing), (.deinit, Env.failing)] State.initial).calls
      = (run
        [(.init, Env.ok 960000000 none none), (.init, Env.ok 960000000 none none),
         (.boost_request, Env.ok 1200000000 none none),
         (.boost_expiry, Env.ok 960000000 none none),
         (.deinit, Env.failing), (.deinit, Env.failing)] State.initial).mali_clk_flag ∧
    ((run
        [(.init, Env.ok 960000000 none none), (.init, Env.ok 960000000 none none),
         (.boost_request, Env.ok 1200000000 none none),
         (.boost_expiry, Env.ok 960000000 none none),
         (.deinit, Env.failing), (.deinit, Env.failing)] State.initial).mali_clk_flag = 0 ∨
     (run
        [(.init, Env.ok 960000000 none none), (.init, Env.ok 960000000 none none),
         (.boost_request, Env.ok 1200000000 none none),
         (.boost_expiry, Env.ok 960000000 none none),
         (.deinit, Env.failing), (.deinit, Env.failing)] State.initial).mali_clk_flag = 1) :=
  C3_enable_disable_balance _ State.initial (by decide) (by decide) (by decide)

end MaliPlatform
